import Mathlib

set_option maxHeartbeats 1000000

namespace GHL

/-! Shallow embedding of the VivaSpot to GoHighLevel contact-sync service.
Definitions are translated from the JavaScript source files: the sync
pipeline (sync service `processContact`, `isOptedIn`, `parseName`), the
database query helpers (`isContactSynced`, `recordSyncedContact`,
`logSync`, `createMacMappingsWithTag`, `findVivaSpotMatch`,
`updateGHLTokens`, `getLocationByMAC`, `getMacMappingWithTag`), the
GoHighLevel service (`ensureValidToken`) and the manual setup route
(`normalizeMacAddress`). -/

/-! Characters and strings, modelling the ASCII fragment of the JS string
operations used by the source. -/

/-- ASCII lowercasing, the behaviour of JS toLowerCase on ASCII data. -/
def toLowerAscii (c : Char) : Char :=
  if 65 ≤ c.toNat ∧ c.toNat ≤ 90 then Char.ofNat (c.toNat + 32) else c

/-- ASCII uppercasing, the behaviour of JS toUpperCase on ASCII data. -/
def toUpperAscii (c : Char) : Char :=
  if 97 ≤ c.toNat ∧ c.toNat ≤ 122 then Char.ofNat (c.toNat - 32) else c

/-- Lowercase a string, JS s.toLowerCase() for ASCII data. -/
def lowerStr (s : String) : String := String.mk (s.toList.map toLowerAscii)

/-- Uppercase a string, JS s.toUpperCase() for ASCII data. -/
def upperStr (s : String) : String := String.mk (s.toList.map toUpperAscii)

/-- Whitespace characters removed by JS trim (ASCII fragment). -/
def jsWs (c : Char) : Bool :=
  c = ' ' || c = '\t' || c = '\n' || c = '\r' || c = '\x0b' || c = '\x0c'

/-- Trim leading and trailing whitespace from a character list. -/
def trimChars (l : List Char) : List Char :=
  ((l.dropWhile jsWs).reverse.dropWhile jsWs).reverse

/-- JS s.trim(). -/
def jsTrim (s : String) : String := String.mk (trimChars s.toList)

/-! The MAC-address normalizer of the manual setup route
(normalizeMacAddress in src/routes/setup.js). -/

/-- Characters removed by the setup-route normalizer: the JS regex
character class of colon, hyphen, dot and whitespace. -/
def isMacSep (c : Char) : Bool :=
  c = ':' || c = '-' || c = '.' || c = ' ' || c = '\t' || c = '\n' || c = '\r' ||
    c = '\x0b' || c = '\x0c'

/-- Strip separators and whitespace, then lowercase: the JS expression
mac.replace(regex, empty).toLowerCase(). -/
def cleanedMac (s : String) : List Char :=
  (s.toList.filter (fun c => !isMacSep c)).map toLowerAscii

/-- Lowercase hexadecimal digit test, the JS regex class 0-9a-f. -/
def isHexLower (c : Char) : Bool :=
  (48 ≤ c.toNat ∧ c.toNat ≤ 57) || (97 ≤ c.toNat ∧ c.toNat ≤ 102)

/-- Split a character list into the chunks produced by the JS global
regex match of two arbitrary characters; a trailing lone character is
not matched. -/
def chunkPairs : List Char → List (List Char)
  | a :: b :: rest => [a, b] :: chunkPairs rest
  | _ => []

/-- Join chunks with a colon, the JS Array.join of a colon string. -/
def joinColon : List (List Char) → List Char
  | [] => []
  | [p] => p
  | p :: ps => p ++ ':' :: joinColon ps

/-- Normalize a raw MAC-address string to canonical lowercase
colon-separated form, or fail. Translated from normalizeMacAddress in
the setup route: reject a falsy input, strip separators and lowercase,
require exactly 12 lowercase hex characters, and reformat as
colon-separated octets. -/
def normalizeMacAddress (s : String) : Option String :=
  if s = "" then none
  else
    let cleaned := cleanedMac s
    if cleaned.length = 12 ∧ cleaned.all isHexLower then
      some (String.mk (joinColon (chunkPairs cleaned)))
    else none

/-- Lookup key computed by getLocationByMAC in the query helpers:
uppercase and replace every hyphen with a colon (the JS global regex
replace of single hyphens). -/
def getLocationByMACKey (mac : String) : String :=
  String.mk ((upperStr mac).toList.map (fun c => if c = '-' then ':' else c))

/-- Lookup key computed by getMacMappingWithTag in the query helpers:
lowercase and trim. -/
def getMacMappingWithTagKey (mac : String) : String :=
  jsTrim (lowerStr mac)

/-! Dynamic JS values, as far as the opt-in field needs them. -/

/-- A JS value of the shapes handled by the sync service: undefined,
null, boolean, string, number, array, plain object. -/
inductive JSVal where
  | undef
  | null
  | bool (b : Bool)
  | str (s : String)
  | num (n : Int)
  | arr (elems : List JSVal)
  | obj (fields : List (String × JSVal))

/-- JS truthiness for the modelled values. -/
def jsTruthy : JSVal → Bool
  | .undef => false
  | .null => false
  | .bool b => b
  | .str s => s ≠ ""
  | .num n => n ≠ 0
  | .arr _ => true
  | .obj _ => true

/-- Opt-in classification, translated from isOptedIn in the sync
service: undefined and null are rejected, a boolean is itself, a string
is lowercased and compared against yes, true and 1, an array is accepted
when non-empty, an object when some value is truthy, and every other
value (a number) is rejected. -/
def isOptedIn : JSVal → Bool
  | .undef => false
  | .null => false
  | .bool b => b
  | .str s => lowerStr s = "yes" || lowerStr s = "true" || lowerStr s = "1"
  | .num _ => false
  | .arr elems => 0 < elems.length
  | .obj fields => fields.any (fun kv => jsTruthy kv.2)

/-- Split a full name on whitespace runs: first token is the given name,
the remaining tokens joined with single spaces are the family name.
Translated from parseName in the sync service. -/
def parseName (name : Option String) : String × String :=
  match name with
  | none => ("", "")
  | some s =>
    if s = "" then ("", "")
    else
      let parts := (((trimChars s.toList).splitOnP jsWs).filter (· ≠ [])).map String.mk
      match parts with
      | [] => ("", "")
      | [p] => (p, "")
      | p :: rest => (p, String.intercalate " " rest)

example : normalizeMacAddress "00-18-0A-27-29-76" = some "00:18:0a:27:29:76" := by decide
example : normalizeMacAddress "00180a272976" = some "00:18:0a:27:29:76" := by decide
example : normalizeMacAddress "00:18" = none := by decide
example : getLocationByMACKey "00-18-0a-27-29-76" = "00:18:0A:27:29:76" := by decide
example : getMacMappingWithTagKey "00-18-0A-27-29-76" = "00-18-0a-27-29-76" := by decide
example : isOptedIn (.str "Yes") = true := by decide
example : isOptedIn (.obj [("a", .bool false)]) = false := by decide
example : parseName (some "Jane Ann Doe") = ("Jane", "Ann Doe") := by decide

/-! The sync pipeline state: the synced_contacts table, the sync_log
table, and the requests issued to the GoHighLevel contact endpoint. -/

/-- A row of the location_mappings join produced by getLocationByMAC:
the mapping together with the joined active-connection token columns. -/
structure MacMapping where
  ghl_location_id : String
  access_token : String
  refresh_token : String
  token_expires_at : Int
deriving DecidableEq

/-- A row of synced_contacts. -/
structure SyncedRow where
  ghl_location_id : String
  contact_email : String
  ghl_contact_id : String
deriving DecidableEq

/-- A row of sync_log. -/
structure LogEntry where
  ghl_location_id : String
  vivaspot_mac : String
  contact_email : String
  status : String
  ghl_contact_id : Option String
  error_message : Option String
deriving DecidableEq

/-- The body of a GoHighLevel contact-creation request as assembled by
the sync service. -/
structure CrmRequest where
  locationId : String
  email : String
  firstName : String
  lastName : String
  phone : Option String
  source : String
  tags : List String
deriving DecidableEq

/-- Mutable state visible to one processContact run. -/
structure SyncState where
  synced : List SyncedRow
  log : List LogEntry
  crmCalls : List CrmRequest
deriving DecidableEq

/-- Result statuses of the pipeline. -/
inductive Status where
  | success
  | skipped
  | error
deriving DecidableEq

/-- The structured result object returned by processContact. -/
structure SyncResult where
  status : Status
  reason : Option String
  ghl_contact_id : Option String
  ghl_location_id : Option String
deriving DecidableEq

/-- Outcomes of the external calls and injected storage faults for one
run: the mapping lookup (a thrown storage error, no row, or a row), a
fault in the idempotence SELECT, the token refresh outcome, the
GoHighLevel contact-creation outcome, a fault in the marker INSERT, and
independent faults for the two ledger INSERT call sites of the sync
service (the success-path write and the catch-clause write). -/
structure SyncEnv where
  mapLookup : Except String (Option MacMapping)
  checkFault : Option String
  tokenResult : Except String String
  crmResult : Except String String
  recordFault : Option String
  logSuccessFault : Option String
  logCatchFault : Option String

/-- The inbound contact event from the webhook. -/
structure Contact where
  mac : Option String
  email : Option String
  name : Option String
  phone : Option String
  opt_in : JSVal

/-- JS falsiness of an optional string field. -/
def jsFalsyStr : Option String → Bool
  | none => true
  | some s => s = ""

/-- The duplicate check of isContactSynced in the query helpers: a
synced_contacts row for the location and the lowercased email. -/
def isContactSynced (st : SyncState) (locationId email : String) : Bool :=
  st.synced.any (fun r => r.ghl_location_id = locationId && r.contact_email = lowerStr email)

/-- The marker write of recordSyncedContact: INSERT with the lowercased
email, ON CONFLICT (ghl_location_id, contact_email) DO NOTHING. -/
def recordSyncedContact (st : SyncState) (locationId email ghlContactId : String) : SyncState :=
  let row : SyncedRow :=
    { ghl_location_id := locationId, contact_email := lowerStr email, ghl_contact_id := ghlContactId }
  if st.synced.any (fun r => r.ghl_location_id = locationId && r.contact_email = lowerStr email) then st
  else { st with synced := st.synced ++ [row] }

/-- The append-only ledger write of logSync. -/
def logSync (st : SyncState) (e : LogEntry) : SyncState :=
  { st with log := st.log ++ [e] }

/-- The catch clause of processContact: log the failure (the ledger
write itself may throw, which propagates) and return a structured error
result. -/
def catchSyncError (env : SyncEnv) (locationId mac email msg : String) (st : SyncState) :
    Except String (SyncResult × SyncState) :=
  let entry : LogEntry :=
    { ghl_location_id := locationId, vivaspot_mac := mac, contact_email := email,
      status := "error", ghl_contact_id := none, error_message := some msg }
  let res : SyncResult :=
    { status := .error, reason := some msg, ghl_contact_id := none, ghl_location_id := none }
  match env.logCatchFault with
  | some fault => .error fault
  | none => .ok (res, logSync st entry)

/-- The sync pipeline, translated step by step from processContact in
the sync service. A returned Except.error models a JS exception escaping
to the caller; Except.ok is the structured result. The try block starts
at the token refresh; the mapping lookup and the idempotence check run
outside it. -/
def processContact (env : SyncEnv) (c : Contact) (st : SyncState) :
    Except String (SyncResult × SyncState) :=
  let mac := c.mac.getD ""
  let email := c.email.getD ""
  if jsFalsyStr c.mac then
    .ok ({ status := .error, reason := some "Missing MAC address",
           ghl_contact_id := none, ghl_location_id := none }, st)
  else if jsFalsyStr c.email then
    .ok ({ status := .error, reason := some "Missing email address",
           ghl_contact_id := none, ghl_location_id := none }, st)
  else if !(isOptedIn c.opt_in) then
    .ok ({ status := .skipped, reason := some "Not opted in",
           ghl_contact_id := none, ghl_location_id := none }, st)
  else
    match env.mapLookup with
    | .error e => .error e
    | .ok none =>
      .ok ({ status := .skipped, reason := some "No GHL mapping for this MAC address",
             ghl_contact_id := none, ghl_location_id := none }, st)
    | .ok (some mapping) =>
      let locationId := mapping.ghl_location_id
      match env.checkFault with
      | some fault => .error fault
      | none =>
        if isContactSynced st locationId email then
          .ok ({ status := .skipped, reason := some "Already synced",
                 ghl_contact_id := none, ghl_location_id := none }, st)
        else
          match env.tokenResult with
          | .error e => catchSyncError env locationId mac email e st
          | .ok _accessToken =>
            let p := parseName c.name
            let req : CrmRequest :=
              { locationId := locationId, email := email, firstName := p.1, lastName := p.2,
                phone := c.phone, source := "VivaSpot WiFi", tags := ["vivaspot-wifi"] }
            let st1 := { st with crmCalls := st.crmCalls ++ [req] }
            match env.crmResult with
            | .error e => catchSyncError env locationId mac email e st1
            | .ok cid =>
              match env.recordFault with
              | some fault => catchSyncError env locationId mac email fault st1
              | none =>
                let st2 := recordSyncedContact st1 locationId email cid
                match env.logSuccessFault with
                | some fault => catchSyncError env locationId mac email fault st2
                | none =>
                  let st3 := logSync st2
                    { ghl_location_id := locationId, vivaspot_mac := mac, contact_email := email,
                      status := "success", ghl_contact_id := some cid, error_message := none }
                  .ok ({ status := .success, reason := none,
                         ghl_contact_id := some cid, ghl_location_id := some locationId }, st3)

/-! The credential lifecycle manager: ensureValidToken from the
GoHighLevel service and updateGHLTokens from the query helpers. Times
are integer milliseconds since the epoch. -/

/-- A ghl_connections row. -/
structure GHLConnection where
  ghl_location_id : String
  access_token : String
  refresh_token : String
  token_expires_at : Int
  is_active : Bool
deriving DecidableEq

/-- The payload of a successful refresh-token exchange. -/
structure RefreshResponse where
  accessToken : String
  refreshToken : String
  expiresIn : Int
deriving DecidableEq

/-- The token persistence step, translated from updateGHLTokens: UPDATE
the rows whose ghl_location_id matches, setting the tokens and the new
expiry computed as now plus expiresIn seconds. -/
def updateGHLTokens (now : Int) (conns : List GHLConnection)
    (locationId accessToken refreshToken : String) (expiresIn : Int) : List GHLConnection :=
  conns.map (fun c =>
    if c.ghl_location_id = locationId then
      { c with access_token := accessToken, refresh_token := refreshToken,
               token_expires_at := now + expiresIn * 1000 }
    else c)

/-- The credential manager, translated from ensureValidToken: when the
stored expiry lies strictly beyond five minutes from now, return the
stored access token untouched; otherwise perform the refresh exchange
with the stored refresh token (a failure propagates), persist via
updateGHLTokens, and return the new access token. The third result
component lists the refresh tokens sent to the token endpoint. -/
def ensureValidToken (now : Int) (refreshOutcome : Except String RefreshResponse)
    (conns : List GHLConnection) (connection : GHLConnection) :
    Except String (String × List GHLConnection × List String) :=
  if now + 5 * 60 * 1000 < connection.token_expires_at then
    .ok (connection.access_token, conns, [])
  else
    match refreshOutcome with
    | .error e => .error e
    | .ok nt =>
      .ok (nt.accessToken,
        updateGHLTokens now conns connection.ghl_location_id nt.accessToken nt.refreshToken
          nt.expiresIn,
        [connection.refresh_token])

/-! The site matcher: findVivaSpotMatch from the query helpers, a pure
function of the email, the location name and the vivaspot_sites
directory snapshot. -/

/-- A vivaspot_sites row. -/
structure Venue where
  id : Int
  restaurant_name : String
  hospitality_group : Option String
  address : String
  merchant_emails : List String
  mac_addresses : List String
deriving DecidableEq

/-- Containment of one character list in another as a contiguous run. -/
def isInfixChars (needle : List Char) : List Char → Bool
  | [] => needle.isEmpty
  | h :: t => needle.isPrefixOf (h :: t) || isInfixChars needle t

/-- Substring containment, the semantics of a SQL LIKE pattern that
wraps the needle in percent wildcards. -/
def containsStr (hay needle : String) : Bool :=
  isInfixChars needle.toList hay.toList

/-- Result of the matcher: a hospitality group, a single site, or no
match. -/
inductive MatchResult where
  | group (groupName : Option String) (sites : List Venue)
  | single (site : Venue)
  | none

/-- Strategy 1 row filter: the normalized email appears in
merchant_emails and the lowercased hospitality_group contains the
normalized location name. A NULL group matches nothing. -/
def stratOnePred (nEmail nName : String) (v : Venue) : Bool :=
  v.merchant_emails.contains nEmail &&
    (match v.hospitality_group with
     | some g => containsStr (lowerStr g) nName
     | none => false)

/-- Strategy 2 row filter: exact email match plus fuzzy name match
(equality, substring either way, or first-space-token containment). -/
def stratTwoPred (nEmail nName : String) (v : Venue) : Bool :=
  v.merchant_emails.contains nEmail &&
    (lowerStr v.restaurant_name = nName
      || containsStr (lowerStr v.restaurant_name) nName
      || containsStr nName (lowerStr v.restaurant_name)
      || containsStr (lowerStr v.restaurant_name) ((nName.splitOn " ").headD ""))

/-- Tokens of length above two obtained by splitting on whitespace and
hyphens, as in strategy 4. -/
def splitWordsLong (s : String) : List String :=
  ((s.toList.splitOnP (fun c => jsWs c || c = '-')).map String.mk).filter
    (fun w => 2 < w.length)

/-- Strategy 4 overlap test: some name token and some site token contain
one another. -/
def wordOverlap (nName siteName : String) : Bool :=
  let nameWords := splitWordsLong nName
  let siteWords := splitWordsLong siteName
  1 ≤ (nameWords.filter
    (fun word => siteWords.any (fun sw => containsStr sw word || containsStr word sw))).length

/-- Strategies 2 to 4 of findVivaSpotMatch, run when strategy 1 found at
most one row: first fuzzy-name row if any, else the single site owned by
the email, else the first of several owned sites with token overlap. -/
def findVivaSpotMatchRest (nEmail nName : String) (dir : List Venue) : MatchResult :=
  match (dir.filter (stratTwoPred nEmail nName)).head? with
  | some v => .single v
  | Option.none =>
    match dir.filter (fun v => v.merchant_emails.contains nEmail) with
    | [v] => .single v
    | [] => .none
    | sites =>
      match sites.find? (fun v => wordOverlap nName (lowerStr v.restaurant_name)) with
      | some v => .single v
      | Option.none => .none

/-- ORDER BY restaurant_name of the strategy 1 query. -/
def sortByName (l : List Venue) : List Venue :=
  l.mergeSort (fun a b => a.restaurant_name ≤ b.restaurant_name)

/-- The site matcher, translated from findVivaSpotMatch: normalize the
inputs, run the hospitality-group query, and return a group when it
yields more than one row, otherwise fall through to the remaining
strategies. -/
def findVivaSpotMatch (email locationName : String) (dir : List Venue) : MatchResult :=
  let nEmail := jsTrim (lowerStr email)
  let nName := jsTrim (lowerStr locationName)
  let rows := sortByName (dir.filter (stratOnePred nEmail nName))
  if 1 < rows.length then
    match rows with
    | r :: _ => .group r.hospitality_group rows
    | [] => .none
  else findVivaSpotMatchRest nEmail nName dir

/-! The bulk mapper: createMacMappingsWithTag from the query helpers,
acting on the mac_mappings table. -/

/-- A mac_mappings row. -/
structure MacRow where
  mac_address : String
  ghl_location_id : String
  source_restaurant : Option String
  source_tag : Option String
deriving DecidableEq

/-- Per-entry key normalization inside createMacMappingsWithTag:
lowercase then trim. -/
def normEntry (mac : String) : String := jsTrim (lowerStr mac)

/-- One loop iteration of createMacMappingsWithTag: UPDATE the rows
carrying the key when one exists, else INSERT a fresh row. -/
def upsertMacRow (locationId : String) (sr tag : Option String) (store : List MacRow)
    (nm : String) : List MacRow :=
  if store.any (fun r => r.mac_address = nm) then
    store.map (fun r =>
      if r.mac_address = nm then
        { r with ghl_location_id := locationId, source_restaurant := sr, source_tag := tag }
      else r)
  else
    store ++ [{ mac_address := nm, ghl_location_id := locationId,
                source_restaurant := sr, source_tag := tag }]

/-- The bulk mapping loop, translated from createMacMappingsWithTag: an
empty list returns zero; each entry is lowercased and trimmed, entries
that are empty or shorter than eleven characters are skipped, and every
other entry is upserted and counted once. Returns the final store and
the count. -/
def createMacMappingsWithTag (locationId : String) (macs : List String)
    (sr tag : Option String) (store : List MacRow) : List MacRow × Nat :=
  match macs with
  | [] => (store, 0)
  | mac :: rest =>
    let nm := normEntry mac
    if nm = "" || nm.length < 11 then
      createMacMappingsWithTag locationId rest sr tag store
    else
      let res := createMacMappingsWithTag locationId rest sr tag
        (upsertMacRow locationId sr tag store nm)
      (res.1, res.2 + 1)

/-! Counting helpers for the idempotence claims. -/

/-- Number of synced_contacts rows for a location and an email, the
email compared after lowercasing as the queries do. -/
def markerCount (st : SyncState) (locationId email : String) : Nat :=
  st.synced.countP (fun r => r.ghl_location_id = locationId && r.contact_email = lowerStr email)

/-- Number of success ledger entries for a location and an email. -/
def successLogCount (st : SyncState) (locationId email : String) : Nat :=
  st.log.countP
    (fun l => l.ghl_location_id = locationId && l.contact_email = email && l.status = "success")

/-! Concrete fixtures for witnesses and counterexamples. -/

/-- Empty initial state. -/
def st0 : SyncState := ⟨[], [], []⟩

/-- A mapping row fixture. -/
def mappingEx : MacMapping := ⟨"loc1", "atok", "rtok", 0⟩

/-- Healthy environment: mapping found, no storage faults, token and
CRM call succeed. -/
def envOk : SyncEnv := ⟨.ok (some mappingEx), none, .ok "atok", .ok "cid1", none, none, none⟩

/-- Environment whose mapping lookup throws. -/
def envDbDown : SyncEnv := { envOk with mapLookup := .error "db connection lost" }

/-- Environment whose success-path ledger write throws while the
catch-path ledger write succeeds. -/
def envLedgerDown : SyncEnv := { envOk with logSuccessFault := some "ledger write failed" }

/-- A fully populated opted-in contact event. -/
def contactEx : Contact :=
  ⟨some "00:18:0a:27:29:76", some "Guest@Example.com", some "Jane Ann Doe", some "555", .bool true⟩

/-- The same event without an opt-in signal. -/
def contactNoOpt : Contact := { contactEx with opt_in := .null }

/-- A connection expiring two minutes after time zero. -/
def connSoon : GHLConnection := ⟨"locX", "a0", "r0", 120000, true⟩

/-- Venue fixtures sharing a hospitality group and an owner email. -/
def venueA : Venue := ⟨1, "Acme Bistro", some "Acme Group", "addr1", ["a@x.com"], ["m1"]⟩

/-- Second venue of the same group, listed first to exercise sorting. -/
def venueB : Venue := ⟨2, "Acme Cafe", some "Acme Group", "addr2", ["a@x.com"], ["m2"]⟩

/-- Directory snapshot fixture, deliberately out of name order. -/
def dirEx : List Venue := [venueB, venueA]

/-! Helper lemmas shared by several claim proofs. -/

lemma any_eq_false_of_countP_eq_zero {α : Type} (p : α → Bool) (l : List α)
    (h : l.countP p = 0) : l.any p = false := by
  rw [List.any_eq_false]
  exact fun x hx => by
    have := List.countP_eq_zero.1 h x hx
    simpa using this

lemma countP_eq_zero_of_any_eq_false {α : Type} (p : α → Bool) (l : List α)
    (h : l.any p = false) : l.countP p = 0 := by
  rw [List.countP_eq_zero]
  intro a ha
  have := List.any_eq_false.1 h a ha
  simpa using this

lemma isContactSynced_eq_false {st : SyncState} {loc em : String}
    (h : markerCount st loc em = 0) : isContactSynced st loc em = false := by
  unfold markerCount at h
  unfold isContactSynced
  exact any_eq_false_of_countP_eq_zero _ _ h

lemma recordSyncedContact_log (st : SyncState) (loc em cid : String) :
    (recordSyncedContact st loc em cid).log = st.log := by
  unfold recordSyncedContact
  split <;> rfl

lemma recordSyncedContact_crmCalls (st : SyncState) (loc em cid : String) :
    (recordSyncedContact st loc em cid).crmCalls = st.crmCalls := by
  unfold recordSyncedContact
  split <;> rfl

/-- C3: the opt-in check classifies as opted-in exactly boolean true,
strings lowercasing to yes, true or 1, non-empty arrays, and objects
with a truthy value; all other values are rejected, and a rejected event
terminates as skipped with the not-opted-in reason without touching the
state. -/
theorem optInClassification :
    (∀ v : JSVal, isOptedIn v = true ↔
      (v = .bool true ∨
       (∃ s, v = .str s ∧ (lowerStr s = "yes" ∨ lowerStr s = "true" ∨ lowerStr s = "1")) ∨
       (∃ l, v = .arr l ∧ l ≠ []) ∨
       (∃ fs, v = .obj fs ∧ fs.any (fun kv => jsTruthy kv.2) = true))) ∧
    (∀ (env : SyncEnv) (c : Contact) (st : SyncState),
      jsFalsyStr c.mac = false → jsFalsyStr c.email = false →
      isOptedIn c.opt_in = false →
      processContact env c st = .ok
        ({ status := .skipped, reason := some "Not opted in",
           ghl_contact_id := none, ghl_location_id := none }, st)) := by
  constructor
  · intro v
    cases v with
    | undef => simp [isOptedIn]
    | null => simp [isOptedIn]
    | bool b => cases b <;> simp [isOptedIn]
    | str s => simp [isOptedIn, or_assoc]
    | num n => simp [isOptedIn]
    | arr l =>
      simp [isOptedIn, List.length_pos]
    | obj fs => simp [isOptedIn]
  · intro env c st h1 h2 h3
    unfold processContact
    simp [h1, h2, h3]

/-- C3 witness: a rejected string opt-in terminates as skipped on a
concrete healthy environment. -/
theorem optInClassificationWitness :
    isOptedIn (.str "Yes") = true ∧
    processContact envOk contactNoOpt st0 = .ok
      ({ status := .skipped, reason := some "Not opted in",
         ghl_contact_id := none, ghl_location_id := none }, st0) :=
  ⟨(optInClassification.1 (.str "Yes")).2 (.inr (.inl ⟨"Yes", rfl, .inl (by decide)⟩)),
   optInClassification.2 envOk contactNoOpt st0 (by decide) (by decide) (by decide)⟩

/-- C4: when the stored expiry lies more than five minutes in the
future the stored token is returned with no refresh call and no store
write; otherwise exactly one refresh exchange with the stored refresh
token happens and, when it succeeds, the returned tokens and the new
expiry are persisted for the connection and the new access token is
returned. -/
theorem ensureValidTokenSpec (now : Int) (ro : Except String RefreshResponse)
    (conns : List GHLConnection) (conn : GHLConnection) :
    (now + 5 * 60 * 1000 < conn.token_expires_at →
      ensureValidToken now ro conns conn = .ok (conn.access_token, conns, [])) ∧
    (¬ now + 5 * 60 * 1000 < conn.token_expires_at → ∀ nt, ro = .ok nt →
      ensureValidToken now ro conns conn =
        .ok (nt.accessToken,
          updateGHLTokens now conns conn.ghl_location_id nt.accessToken nt.refreshToken
            nt.expiresIn,
          [conn.refresh_token]) ∧
      ∀ c ∈ updateGHLTokens now conns conn.ghl_location_id nt.accessToken nt.refreshToken
          nt.expiresIn,
        c.ghl_location_id = conn.ghl_location_id →
          c.access_token = nt.accessToken ∧ c.refresh_token = nt.refreshToken ∧
          c.token_expires_at = now + nt.expiresIn * 1000) := by
  refine ⟨fun h => by unfold ensureValidToken; rw [if_pos h], fun h nt hnt => ⟨?_, ?_⟩⟩
  · unfold ensureValidToken
    rw [if_neg h, hnt]
  · intro c hc hid
    unfold updateGHLTokens at hc
    obtain ⟨o, _, hoc⟩ := List.mem_map.1 hc
    by_cases hoid : o.ghl_location_id = conn.ghl_location_id
    · rw [if_pos hoid] at hoc
      subst hoc
      exact ⟨rfl, rfl, rfl⟩
    · rw [if_neg hoid] at hoc
      subst hoc
      exact absurd hid hoid

/-- C4 witness: a connection expiring in two minutes triggers the
refresh path and persists the exchanged tokens. -/
theorem ensureValidTokenWitness :
    ensureValidToken 0 (.ok ⟨"newA", "newR", 86400⟩) [connSoon] connSoon =
      .ok ("newA", updateGHLTokens 0 [connSoon] "locX" "newA" "newR" 86400, ["r0"]) :=
  ((ensureValidTokenSpec 0 (.ok ⟨"newA", "newR", 86400⟩) [connSoon] connSoon).2
    (by decide) ⟨"newA", "newR", 86400⟩ rfl).1

lemma countP_upsertMacRow_of_eq (locationId : String) (sr tag : Option String)
    (store : List MacRow) (nm : String) :
    (upsertMacRow locationId sr tag store nm).countP (fun r => r.mac_address = nm) =
      if store.any (fun r => r.mac_address = nm) then
        store.countP (fun r => r.mac_address = nm)
      else store.countP (fun r => r.mac_address = nm) + 1 := by
  unfold upsertMacRow
  split
  · rw [List.countP_map]
    apply List.countP_congr
    intro r _
    by_cases hr : r.mac_address = nm <;> simp [hr, Function.comp]
  · rw [List.countP_append]
    simp

/-- C10: the bulk mapping call counts each well-formed entry once per
occurrence: the returned count is the number of list entries whose
lowercased and trimmed form is non-empty and at least eleven characters
long, and a valid id occurring twice on a store without it contributes
two to the count while leaving exactly one row for that key. -/
theorem bulkMapCount (locationId : String) (macs : List String) (sr tag : Option String)
    (store : List MacRow) :
    (createMacMappingsWithTag locationId macs sr tag store).2 =
      (macs.filter (fun m => !(normEntry m = "" || (normEntry m).length < 11))).length ∧
    (∀ m, (normEntry m = "" || decide ((normEntry m).length < 11)) = false →
      store.countP (fun r => r.mac_address = normEntry m) = 0 →
      (createMacMappingsWithTag locationId [m, m] sr tag store).2 = 2 ∧
      (createMacMappingsWithTag locationId [m, m] sr tag store).1.countP
        (fun r => r.mac_address = normEntry m) = 1) := by
  constructor
  · induction macs generalizing store with
    | nil => simp [createMacMappingsWithTag]
    | cons mac rest ih =>
      unfold createMacMappingsWithTag
      by_cases h : (decide (normEntry mac = "") || decide ((normEntry mac).length < 11)) = true
      · rw [if_pos h]
        simp only [List.filter_cons]
        rw [ih]
        simp [h]
      · rw [if_neg h]
        simp only [List.filter_cons]
        have h2 : (!(decide (normEntry mac = "") || decide ((normEntry mac).length < 11))) = true := by
          simp_all
        rw [h2]
        simp only [List.length_cons]
        rw [ih]
        simp
  · intro m hval hfresh
    have hany : store.any (fun r => r.mac_address = normEntry m) = false :=
      any_eq_false_of_countP_eq_zero _ _ hfresh
    unfold createMacMappingsWithTag createMacMappingsWithTag createMacMappingsWithTag
    rw [if_neg (by simp_all), if_neg (by simp_all)]
    refine ⟨rfl, ?_⟩
    have h1 : (upsertMacRow locationId sr tag store (normEntry m)).countP
        (fun r => r.mac_address = normEntry m) = 1 := by
      rw [countP_upsertMacRow_of_eq, if_neg (by simp [hany]), hfresh]
    have h2 : (upsertMacRow locationId sr tag store (normEntry m)).any
        (fun r => r.mac_address = normEntry m) = true := by
      cases hx : (upsertMacRow locationId sr tag store (normEntry m)).any
          (fun r => r.mac_address = normEntry m)
      · have hz := countP_eq_zero_of_any_eq_false _ _ hx
        rw [h1] at hz
        exact absurd hz one_ne_zero
      · rfl
    rw [countP_upsertMacRow_of_eq, if_pos h2, h1]

/-- C10 witness: the id 00:18:0a:27:29:76 listed twice on an empty
store yields count two and one row; the short id ab contributes
nothing. -/
theorem bulkMapCountWitness :
    (createMacMappingsWithTag "loc1" ["00:18:0a:27:29:76", "00:18:0a:27:29:76"] none none []).2 = 2 ∧
    (createMacMappingsWithTag "loc1" ["00:18:0a:27:29:76", "00:18:0a:27:29:76"] none none []).1.countP
      (fun r => r.mac_address = normEntry "00:18:0a:27:29:76") = 1 ∧
    (createMacMappingsWithTag "loc1" ["ab"] none none []).2 = 0 :=
  ⟨((bulkMapCount "loc1" [] none none []).2 "00:18:0a:27:29:76" (by decide) (by decide)).1,
   ((bulkMapCount "loc1" [] none none []).2 "00:18:0a:27:29:76" (by decide) (by decide)).2,
   by simpa using (bulkMapCount "loc1" ["ab"] none none []).1⟩

lemma processContact_success_run (env : SyncEnv) (c : Contact) (st : SyncState)
    (mapping : MacMapping) (tok cid : String)
    (hmac : jsFalsyStr c.mac = false) (hemail : jsFalsyStr c.email = false)
    (hopt : isOptedIn c.opt_in = true)
    (hmap : env.mapLookup = .ok (some mapping))
    (hcf : env.checkFault = none)
    (hsync : isContactSynced st mapping.ghl_location_id (c.email.getD "") = false)
    (htok : env.tokenResult = .ok tok) (hcrm : env.crmResult = .ok cid)
    (hrf : env.recordFault = none) (hlf : env.logSuccessFault = none) :
    processContact env c st = .ok
      ({ status := .success, reason := none, ghl_contact_id := some cid,
         ghl_location_id := some mapping.ghl_location_id },
       { synced := st.synced ++
           [⟨mapping.ghl_location_id, lowerStr (c.email.getD ""), cid⟩],
         log := st.log ++
           [⟨mapping.ghl_location_id, c.mac.getD "", c.email.getD "", "success", some cid,
             none⟩],
         crmCalls := st.crmCalls ++
           [⟨mapping.ghl_location_id, c.email.getD "", (parseName c.name).1,
             (parseName c.name).2, c.phone, "VivaSpot WiFi", ["vivaspot-wifi"]⟩] }) := by
  have hany : st.synced.any
      (fun r => r.ghl_location_id = mapping.ghl_location_id &&
        r.contact_email = lowerStr (c.email.getD "")) = false := hsync
  unfold processContact
  simp [hmac, hemail, hopt, hmap, hcf, hsync, htok, hcrm, hrf, hlf, hany,
    recordSyncedContact, logSync]

lemma processContact_already_synced (env : SyncEnv) (c : Contact) (st : SyncState)
    (mapping : MacMapping)
    (hmac : jsFalsyStr c.mac = false) (hemail : jsFalsyStr c.email = false)
    (hopt : isOptedIn c.opt_in = true)
    (hmap : env.mapLookup = .ok (some mapping))
    (hcf : env.checkFault = none)
    (hsync : isContactSynced st mapping.ghl_location_id (c.email.getD "") = true) :
    processContact env c st = .ok
      ({ status := .skipped, reason := some "Already synced",
         ghl_contact_id := none, ghl_location_id := none }, st) := by
  unfold processContact
  simp [hmac, hemail, hopt, hmap, hcf, hsync]

/-- C1: on a healthy environment where the CRM call succeeds, the same
(tenant, email) event processed twice on a state with no prior marker or
success entry yields success then skipped with the already-synced
reason, leaving exactly one synced-contact marker and exactly one
success ledger entry for the pair. -/
theorem syncIdempotence (env : SyncEnv) (c : Contact) (st : SyncState)
    (mapping : MacMapping) (tok cid : String)
    (hmac : jsFalsyStr c.mac = false) (hemail : jsFalsyStr c.email = false)
    (hopt : isOptedIn c.opt_in = true)
    (hmap : env.mapLookup = .ok (some mapping))
    (hcf : env.checkFault = none)
    (htok : env.tokenResult = .ok tok) (hcrm : env.crmResult = .ok cid)
    (hrf : env.recordFault = none) (hlf : env.logSuccessFault = none)
    (hfresh : markerCount st mapping.ghl_location_id (c.email.getD "") = 0)
    (hlog : successLogCount st mapping.ghl_location_id (c.email.getD "") = 0) :
    ∃ r1 st1 r2,
      processContact env c st = .ok (r1, st1) ∧ r1.status = .success ∧
      processContact env c st1 = .ok (r2, st1) ∧
      r2.status = .skipped ∧ r2.reason = some "Already synced" ∧
      markerCount st1 mapping.ghl_location_id (c.email.getD "") = 1 ∧
      successLogCount st1 mapping.ghl_location_id (c.email.getD "") = 1 := by
  have hsync := isContactSynced_eq_false hfresh
  have h1 := processContact_success_run env c st mapping tok cid hmac hemail hopt hmap hcf
    hsync htok hcrm hrf hlf
  refine ⟨_, _, ⟨.skipped, some "Already synced", none, none⟩, h1, rfl, ?_, rfl, rfl, ?_, ?_⟩
  · apply processContact_already_synced env c _ mapping hmac hemail hopt hmap hcf
    unfold isContactSynced
    simp
  · unfold markerCount at hfresh ⊢
    simp [List.countP_append, hfresh]
  · unfold successLogCount at hlog ⊢
    simp [List.countP_append, hlog]

/-- C1 witness: the fixture contact processed twice on the healthy
environment from the empty state. -/
theorem syncIdempotenceWitness :
    ∃ r1 st1 r2,
      processContact envOk contactEx st0 = .ok (r1, st1) ∧ r1.status = .success ∧
      processContact envOk contactEx st1 = .ok (r2, st1) ∧
      r2.status = .skipped ∧ r2.reason = some "Already synced" ∧
      markerCount st1 mappingEx.ghl_location_id (contactEx.email.getD "") = 1 ∧
      successLogCount st1 mappingEx.ghl_location_id (contactEx.email.getD "") = 1 :=
  syncIdempotence envOk contactEx st0 mappingEx "atok" "cid1" (by decide) (by decide)
    (by decide) rfl rfl rfl rfl rfl rfl (by decide) (by decide)

/-- C9: the idempotence key is case-insensitive in the email: after a
successful sync of an email, a second event whose email differs only in
letter case is skipped as already synced with no state change, while the
CRM request of the first event carried the email in its original
case. -/
theorem emailCaseInsensitiveKey (env : SyncEnv) (st : SyncState) (mapping : MacMapping)
    (tok cid mac e1 e2 : String) (name phone : Option String) (opt : JSVal)
    (hmac : mac ≠ "") (he1 : e1 ≠ "") (he2 : e2 ≠ "")
    (hlow : lowerStr e1 = lowerStr e2)
    (hopt : isOptedIn opt = true)
    (hmap : env.mapLookup = .ok (some mapping))
    (hcf : env.checkFault = none)
    (htok : env.tokenResult = .ok tok) (hcrm : env.crmResult = .ok cid)
    (hrf : env.recordFault = none) (hlf : env.logSuccessFault = none)
    (hfresh : markerCount st mapping.ghl_location_id e1 = 0) :
    ∃ r1 st1,
      processContact env ⟨some mac, some e1, name, phone, opt⟩ st = .ok (r1, st1) ∧
      r1.status = .success ∧
      st1.crmCalls = st.crmCalls ++
        [⟨mapping.ghl_location_id, e1, (parseName name).1, (parseName name).2, phone,
          "VivaSpot WiFi", ["vivaspot-wifi"]⟩] ∧
      processContact env ⟨some mac, some e2, name, phone, opt⟩ st1 = .ok
        (⟨.skipped, some "Already synced", none, none⟩, st1) := by
  have hsync : isContactSynced st mapping.ghl_location_id
      ((⟨some mac, some e1, name, phone, opt⟩ : Contact).email.getD "") = false := by
    simpa using isContactSynced_eq_false hfresh
  have h1 := processContact_success_run env ⟨some mac, some e1, name, phone, opt⟩ st mapping
    tok cid (by simp [jsFalsyStr, hmac]) (by simp [jsFalsyStr, he1]) hopt hmap hcf hsync
    htok hcrm hrf hlf
  refine ⟨_, _, h1, rfl, by simp, ?_⟩
  apply processContact_already_synced env _ _ mapping (by simp [jsFalsyStr, hmac])
    (by simp [jsFalsyStr, he2]) hopt hmap hcf
  unfold isContactSynced
  simp [hlow]

/-- C9 witness: emails differing only in case on the healthy fixture
environment. -/
theorem emailCaseInsensitiveKeyWitness :
    ∃ r1 st1,
      processContact envOk ⟨some "00:18:0a:27:29:76", some "A@X.com", none, none, .bool true⟩
          st0 = .ok (r1, st1) ∧
      r1.status = .success ∧
      st1.crmCalls = st0.crmCalls ++
        [⟨mappingEx.ghl_location_id, "A@X.com", (parseName none).1, (parseName none).2, none,
          "VivaSpot WiFi", ["vivaspot-wifi"]⟩] ∧
      processContact envOk ⟨some "00:18:0a:27:29:76", some "a@x.com", none, none, .bool true⟩
          st1 = .ok (⟨.skipped, some "Already synced", none, none⟩, st1) :=
  emailCaseInsensitiveKey envOk st0 mappingEx "atok" "cid1" "00:18:0a:27:29:76" "A@X.com"
    "a@x.com" none none (.bool true) (by decide) (by decide) (by decide) (by decide)
    (by decide) rfl rfl rfl rfl rfl rfl (by decide)

/-- C2 counterexample: the opt-in-rejected skip is a terminal outcome
yet appends no Sync Ledger entry: on a healthy environment with a valid
mapping the run ends skipped and the ledger stays empty. -/
theorem ledgerPerOutcomeCounterexample :
    processContact envOk contactNoOpt st0 = .ok
      (⟨.skipped, some "Not opted in", none, none⟩, st0) ∧ st0.log = [] :=
  ⟨rfl, rfl⟩

/-- C2 amended: only the success outcome and a caught pipeline error
append a ledger entry, one each; validation failures and all three skip
outcomes (not opted in, unmapped device, already synced) append none. -/
theorem ledgerPerOutcome (env : SyncEnv) (c : Contact) (st : SyncState)
    (r : SyncResult) (st2 : SyncState)
    (h : processContact env c st = .ok (r, st2)) :
    (r.status = .skipped → st2.log = st.log) ∧
    (r.status = .success → ∃ e, st2.log = st.log ++ [e] ∧ e.status = "success") ∧
    (r.status = .error →
      ((jsFalsyStr c.mac || jsFalsyStr c.email) = true → st2.log = st.log) ∧
      ((jsFalsyStr c.mac || jsFalsyStr c.email) = false →
        ∃ e, st2.log = st.log ++ [e] ∧ e.status = "error")) := by
  unfold processContact catchSyncError at h
  simp only [Except.ok.injEq, Prod.mk.injEq] at h
  repeat' split at h
  all_goals try exact absurd h (fun hc => Except.noConfusion hc)
  all_goals simp only [Except.ok.injEq, Prod.mk.injEq] at h
  all_goals obtain ⟨hr, hst⟩ := h
  all_goals subst hst
  all_goals subst hr
  all_goals refine ⟨fun hs => ?_, fun hs => ?_, fun hs => ?_⟩
  all_goals simp_all [logSync, recordSyncedContact_log]

/-- C2 amended witness: the successful fixture run appends exactly one
success ledger entry. -/
theorem ledgerPerOutcomeWitness :
    ∃ e, [(⟨"loc1", "00:18:0a:27:29:76", "Guest@Example.com", "success", some "cid1",
        none⟩ : LogEntry)] = ([] : List LogEntry) ++ [e] ∧ e.status = "success" :=
  (ledgerPerOutcome envOk contactEx st0 _ _ rfl).2.1 rfl

/-- C6 counterexample: a storage failure in the mapping lookup escapes
processContact as an exception instead of a structured result. -/
theorem pipelineBoundaryCounterexample :
    processContact envDbDown contactEx st0 = .error "db connection lost" := rfl

/-- C6 amended: every failure arising inside the try block of
processContact — token refresh, CRM call, marker write, and the
success-path ledger write — is caught and converted to a structured
result (only storage failures in the mapping lookup, the idempotence
check, or the catch-path ledger write itself propagate): the first part
shows any such run returns a result object, and the second shows the
specific error path where the success-path ledger write fails after the
marker is recorded, the catch clause logs an error entry, and a
structured error result is returned. -/
theorem pipelineBoundary (env : SyncEnv) (c : Contact) (st : SyncState)
    (hcf : env.checkFault = none) (hlcf : env.logCatchFault = none) :
    (∀ m, env.mapLookup = .ok m → ∃ r st2, processContact env c st = .ok (r, st2)) ∧
    (∀ (mapping : MacMapping) (tok cid fault : String),
      jsFalsyStr c.mac = false → jsFalsyStr c.email = false →
      isOptedIn c.opt_in = true →
      env.mapLookup = .ok (some mapping) →
      env.tokenResult = .ok tok → env.crmResult = .ok cid →
      env.recordFault = none → env.logSuccessFault = some fault →
      isContactSynced st mapping.ghl_location_id (c.email.getD "") = false →
      processContact env c st = .ok
        ({ status := .error, reason := some fault, ghl_contact_id := none,
           ghl_location_id := none },
         { synced := st.synced ++
             [⟨mapping.ghl_location_id, lowerStr (c.email.getD ""), cid⟩],
           log := st.log ++
             [⟨mapping.ghl_location_id, c.mac.getD "", c.email.getD "", "error", none,
               some fault⟩],
           crmCalls := st.crmCalls ++
             [⟨mapping.ghl_location_id, c.email.getD "", (parseName c.name).1,
               (parseName c.name).2, c.phone, "VivaSpot WiFi", ["vivaspot-wifi"]⟩] })) := by
  constructor
  · intro m hmap
    cases m with
    | none =>
      unfold processContact
      simp only [hmap]
      repeat' split
      all_goals exact ⟨_, _, rfl⟩
    | some mapping =>
      unfold processContact catchSyncError
      simp only [hmap, hcf, hlcf]
      repeat' split
      all_goals exact ⟨_, _, rfl⟩
  · intro mapping tok cid fault hmac hemail hopt hmap htok hcrm hrf hlsf hsync
    have hany : st.synced.any
        (fun r => r.ghl_location_id = mapping.ghl_location_id &&
          r.contact_email = lowerStr (c.email.getD "")) = false := hsync
    unfold processContact catchSyncError
    simp [hmac, hemail, hopt, hmap, hcf, hsync, htok, hcrm, hrf, hlsf, hlcf, hany,
      recordSyncedContact, logSync]

/-- C6 amended witness: a failing success-path ledger write on an
otherwise healthy environment is caught, re-logged through the catch
path, and converted to a structured error result with the marker
persisted. -/
theorem pipelineBoundaryWitness :
    processContact envLedgerDown contactEx st0 = .ok
      ({ status := .error, reason := some "ledger write failed", ghl_contact_id := none,
         ghl_location_id := none },
       { synced := st0.synced ++
           [⟨mappingEx.ghl_location_id, lowerStr (contactEx.email.getD ""), "cid1"⟩],
         log := st0.log ++
           [⟨mappingEx.ghl_location_id, contactEx.mac.getD "", contactEx.email.getD "",
             "error", none, some "ledger write failed"⟩],
         crmCalls := st0.crmCalls ++
           [⟨mappingEx.ghl_location_id, contactEx.email.getD "", (parseName contactEx.name).1,
             (parseName contactEx.name).2, contactEx.phone, "VivaSpot WiFi",
             ["vivaspot-wifi"]⟩] }) :=
  (pipelineBoundary envLedgerDown contactEx st0 rfl rfl).2 mappingEx "atok" "cid1"
    "ledger write failed" (by decide) (by decide) (by decide) rfl rfl rfl rfl rfl (by decide)

lemma sortByName_perm (l : List Venue) : (sortByName l).Perm l :=
  List.mergeSort_perm l _

lemma sortByName_sorted (l : List Venue) :
    List.Pairwise (fun a b : Venue => a.restaurant_name ≤ b.restaurant_name) (sortByName l) := by
  have h := @List.sorted_mergeSort Venue
    (fun a b => decide (a.restaurant_name ≤ b.restaurant_name))
    (fun a b c h1 h2 => by
      simp only [decide_eq_true_eq] at h1 h2 ⊢
      exact le_trans h1 h2)
    (fun a b => by
      simp only [Bool.or_eq_true, decide_eq_true_eq]
      exact le_total a.restaurant_name b.restaurant_name)
    l
  exact h.imp (fun hab => by simpa using hab)

lemma sortByName_length (l : List Venue) : (sortByName l).length = l.length :=
  List.length_mergeSort l

lemma findVivaSpotMatchRest_ne_group (nEmail nName : String) (dir : List Venue)
    (g : Option String) (s : List Venue) :
    findVivaSpotMatchRest nEmail nName dir ≠ .group g s := by
  unfold findVivaSpotMatchRest
  repeat' split
  all_goals simp

/-- C5: when at least two venues carry the email among their owner
emails and a group name containing the normalized location name, the
matcher returns a Group holding exactly those venues sorted by venue
name; when exactly one such venue exists no Group is returned and the
later strategies decide the result. -/
theorem siteMatcherGroup (email locationName : String) (dir : List Venue) :
    (2 ≤ (dir.filter
        (stratOnePred (jsTrim (lowerStr email)) (jsTrim (lowerStr locationName)))).length →
      (∃ g, findVivaSpotMatch email locationName dir = .group g
        (sortByName (dir.filter
          (stratOnePred (jsTrim (lowerStr email)) (jsTrim (lowerStr locationName)))))) ∧
      (sortByName (dir.filter
          (stratOnePred (jsTrim (lowerStr email)) (jsTrim (lowerStr locationName))))).Perm
        (dir.filter
          (stratOnePred (jsTrim (lowerStr email)) (jsTrim (lowerStr locationName)))) ∧
      List.Pairwise (fun a b : Venue => a.restaurant_name ≤ b.restaurant_name)
        (sortByName (dir.filter
          (stratOnePred (jsTrim (lowerStr email)) (jsTrim (lowerStr locationName)))))) ∧
    ((dir.filter
        (stratOnePred (jsTrim (lowerStr email)) (jsTrim (lowerStr locationName)))).length = 1 →
      findVivaSpotMatch email locationName dir =
        findVivaSpotMatchRest (jsTrim (lowerStr email)) (jsTrim (lowerStr locationName)) dir ∧
      ∀ g sites, findVivaSpotMatch email locationName dir ≠ .group g sites) := by
  constructor
  · intro h2
    have hlen : 1 < (sortByName (dir.filter
        (stratOnePred (jsTrim (lowerStr email)) (jsTrim (lowerStr locationName))))).length := by
      rw [sortByName_length]
      omega
    refine ⟨?_, sortByName_perm _, sortByName_sorted _⟩
    simp only [findVivaSpotMatch]
    rw [if_pos hlen]
    cases hrows : sortByName (dir.filter
        (stratOnePred (jsTrim (lowerStr email)) (jsTrim (lowerStr locationName)))) with
    | nil => rw [hrows] at hlen; simp at hlen
    | cons r rest => exact ⟨r.hospitality_group, rfl⟩
  · intro h1
    have hlen : ¬ 1 < (sortByName (dir.filter
        (stratOnePred (jsTrim (lowerStr email)) (jsTrim (lowerStr locationName))))).length := by
      rw [sortByName_length]
      omega
    refine ⟨?_, ?_⟩
    · simp only [findVivaSpotMatch]
      rw [if_neg hlen]
    · intro g sites
      simp only [findVivaSpotMatch]
      rw [if_neg hlen]
      exact findVivaSpotMatchRest_ne_group _ _ _ g sites

/-- C5 witness: two venues of the Acme Group owned by the same email,
matched against the name Acme, are returned as a Group sorted by venue
name. -/
theorem siteMatcherGroupWitness :
    (∃ g, findVivaSpotMatch "a@x.com" "Acme" dirEx = .group g
      (sortByName (dirEx.filter
        (stratOnePred (jsTrim (lowerStr "a@x.com")) (jsTrim (lowerStr "Acme")))))) ∧
    (sortByName (dirEx.filter
        (stratOnePred (jsTrim (lowerStr "a@x.com")) (jsTrim (lowerStr "Acme"))))).Perm
      (dirEx.filter
        (stratOnePred (jsTrim (lowerStr "a@x.com")) (jsTrim (lowerStr "Acme")))) ∧
    List.Pairwise (fun a b : Venue => a.restaurant_name ≤ b.restaurant_name)
      (sortByName (dirEx.filter
        (stratOnePred (jsTrim (lowerStr "a@x.com")) (jsTrim (lowerStr "Acme"))))) :=
  (siteMatcherGroup "a@x.com" "Acme" dirEx).1 (by decide)

lemma toLowerAscii_hex {c : Char} (h : isHexLower c = true) : toLowerAscii c = c := by
  unfold isHexLower at h
  simp only [Bool.or_eq_true, decide_eq_true_eq] at h
  have hno : ¬ (65 ≤ c.toNat ∧ c.toNat ≤ 90) := by
    rcases h with h | h <;> omega
  unfold toLowerAscii
  rw [if_neg hno]

lemma isMacSep_hex {c : Char} (h : isHexLower c = true) : isMacSep c = false := by
  cases hm : isMacSep c
  · rfl
  · exfalso
    unfold isMacSep at hm
    simp only [Bool.or_eq_true, decide_eq_true_eq, or_assoc] at hm
    rcases hm with rfl | rfl | rfl | rfl | rfl | rfl | rfl | rfl | rfl <;>
      exact absurd h (by decide)

lemma list_len12 {l : List Char} (h : l.length = 12) :
    ∃ c1 c2 c3 c4 c5 c6 c7 c8 c9 c10 c11 c12,
      l = [c1, c2, c3, c4, c5, c6, c7, c8, c9, c10, c11, c12] := by
  rcases l with _ | ⟨c1, l⟩; · simp at h
  rcases l with _ | ⟨c2, l⟩; · simp at h
  rcases l with _ | ⟨c3, l⟩; · simp at h
  rcases l with _ | ⟨c4, l⟩; · simp at h
  rcases l with _ | ⟨c5, l⟩; · simp at h
  rcases l with _ | ⟨c6, l⟩; · simp at h
  rcases l with _ | ⟨c7, l⟩; · simp at h
  rcases l with _ | ⟨c8, l⟩; · simp at h
  rcases l with _ | ⟨c9, l⟩; · simp at h
  rcases l with _ | ⟨c10, l⟩; · simp at h
  rcases l with _ | ⟨c11, l⟩; · simp at h
  rcases l with _ | ⟨c12, l⟩; · simp at h
  rcases l with _ | ⟨c13, l⟩
  · exact ⟨c1, c2, c3, c4, c5, c6, c7, c8, c9, c10, c11, c12, rfl⟩
  · simp only [List.length_cons] at h
    omega

/-- C8: the normalizer is idempotent on its accepted inputs: whenever a
raw string normalizes to a canonical value, normalizing that value again
returns it unchanged. -/
theorem normalizeMacAddressIdem (s t : String) (h : normalizeMacAddress s = some t) :
    normalizeMacAddress t = some t := by
  unfold normalizeMacAddress at h
  by_cases hs : s = ""
  · rw [if_pos hs] at h
    exact absurd h (by simp)
  rw [if_neg hs] at h
  by_cases hcond : (cleanedMac s).length = 12 ∧ (cleanedMac s).all isHexLower = true
  · rw [if_pos hcond] at h
    obtain ⟨hlen, hall⟩ := hcond
    obtain ⟨c1, c2, c3, c4, c5, c6, c7, c8, c9, c10, c11, c12, hc⟩ := list_len12 hlen
    rw [hc] at hall h
    have ht : t = String.mk (joinColon (chunkPairs
        [c1, c2, c3, c4, c5, c6, c7, c8, c9, c10, c11, c12])) := by
      injection h with h2
      exact h2.symm
    subst ht
    simp only [List.all_cons, List.all_nil, Bool.and_eq_true, and_true] at hall
    obtain ⟨h1, h2, h3, h4, h5, h6, h7, h8, h9, h10, h11, h12⟩ := hall
    show normalizeMacAddress (String.mk
        [c1, c2, ':', c3, c4, ':', c5, c6, ':', c7, c8, ':', c9, c10, ':', c11, c12]) =
      some (String.mk
        [c1, c2, ':', c3, c4, ':', c5, c6, ':', c7, c8, ':', c9, c10, ':', c11, c12])
    have hne : ¬ String.mk
        [c1, c2, ':', c3, c4, ':', c5, c6, ':', c7, c8, ':', c9, c10, ':', c11, c12] = "" := by
      intro hEq
      have hdata := congrArg String.data hEq
      simp at hdata
    have hsepc : isMacSep ':' = true := by decide
    have hclean : cleanedMac (String.mk
        [c1, c2, ':', c3, c4, ':', c5, c6, ':', c7, c8, ':', c9, c10, ':', c11, c12]) =
        [c1, c2, c3, c4, c5, c6, c7, c8, c9, c10, c11, c12] := by
      unfold cleanedMac
      show ((([c1, c2, ':', c3, c4, ':', c5, c6, ':', c7, c8, ':', c9, c10, ':', c11,
        c12]).filter (fun c => !isMacSep c)).map toLowerAscii) = _
      simp [List.filter_cons, isMacSep_hex h1, isMacSep_hex h2, isMacSep_hex h3,
        isMacSep_hex h4, isMacSep_hex h5, isMacSep_hex h6, isMacSep_hex h7, isMacSep_hex h8,
        isMacSep_hex h9, isMacSep_hex h10, isMacSep_hex h11, isMacSep_hex h12, hsepc,
        toLowerAscii_hex h1, toLowerAscii_hex h2, toLowerAscii_hex h3,
        toLowerAscii_hex h4, toLowerAscii_hex h5, toLowerAscii_hex h6, toLowerAscii_hex h7,
        toLowerAscii_hex h8, toLowerAscii_hex h9, toLowerAscii_hex h10, toLowerAscii_hex h11,
        toLowerAscii_hex h12]
    unfold normalizeMacAddress
    rw [if_neg hne, hclean]
    rw [if_pos ⟨rfl, by simp [h1, h2, h3, h4, h5, h6, h7, h8, h9, h10, h11, h12]⟩]
    rfl
  · rw [if_neg hcond] at h
    exact absurd h (by simp)

/-- C8 witness: a hyphenated uppercase identifier normalizes to the
canonical form, and the canonical form is a fixed point. -/
theorem normalizeMacAddressIdemWitness :
    normalizeMacAddress "00-18-0A-27-29-76" = some "00:18:0a:27:29:76" ∧
    normalizeMacAddress "00:18:0a:27:29:76" = some "00:18:0a:27:29:76" :=
  ⟨by decide, normalizeMacAddressIdem "00-18-0A-27-29-76" "00:18:0a:27:29:76" (by decide)⟩

/-- C7: the onboarding normalizer and the sync-path lookup keys are not
the same function: the setup route stores the canonical lowercase
colon-separated key, while getMacMappingWithTag only lowercases and
trims (keeping hyphens and bare-hex forms) and getLocationByMAC
uppercases and replaces only hyphens, so accepted spellings of a mapped
identifier produce lookup keys that miss the stored row. -/
theorem deviceKeyNormalizationMismatch :
    normalizeMacAddress "00-18-0a-27-29-76" = some "00:18:0a:27:29:76" ∧
    getMacMappingWithTagKey "00-18-0a-27-29-76" = "00-18-0a-27-29-76" ∧
    getMacMappingWithTagKey "00-18-0a-27-29-76" ≠ "00:18:0a:27:29:76" ∧
    getLocationByMACKey "00-18-0a-27-29-76" = "00:18:0A:27:29:76" ∧
    getLocationByMACKey "00-18-0a-27-29-76" ≠ "00:18:0a:27:29:76" ∧
    normalizeMacAddress "00180a272976" = some "00:18:0a:27:29:76" ∧
    getMacMappingWithTagKey "00180a272976" = "00180a272976" ∧
    getMacMappingWithTagKey "00180a272976" ≠ "00:18:0a:27:29:76" := by
  refine ⟨by decide, by decide, by decide, by decide, by decide, by decide, by decide, by decide⟩

end GHL
